import Mathlib

/-
Verification of the trace-context resolution, identifier derivation and
segment-buffering/flush subsystem of XrayChain.py (class Chain).

The embedding is a shallow one: the mutable Python object becomes an explicit
state record, nondeterministic inputs (os.urandom, uuid/time based identifier
generation, time.time, the process environment, the availability of the boto3
client and the behaviour of the remote sink) become explicit parameters, and
Python exceptions become explicit outcome constructors.
-/

namespace XrayChain

/-- Split a list of characters on a separator character, mirroring Python's
single-character `str.split`: the empty string yields one empty field, and
consecutive separators yield empty fields. -/
def splitOnChar (sep : Char) : List Char → List (List Char)
  | [] => [[]]
  | c :: rest =>
    if c = sep then [] :: splitOnChar sep rest
    else
      match splitOnChar sep rest with
      | [] => [[c]]
      | h :: t => (c :: h) :: t

/-- One `Key=Value` pair, as produced by `p.split("=")` inside the `dict(...)`
comprehension: Python's `dict` raises `ValueError` unless the split yields
exactly two items, so any other arity is a parse failure. -/
def parsePair (p : List Char) : Option (List Char × List Char) :=
  match splitOnChar '=' p with
  | [k, v] => some (k, v)
  | _ => none

/-- Lookup in the association list built by Python's `dict(...)`: a duplicate
key keeps the last binding. -/
def dictLookup (ps : List (List Char × List Char)) (k : List Char) : Option (List Char) :=
  ps.foldl (fun acc kv => if kv.1 = k then some kv.2 else acc) none

/-- Parse of the `_X_AMZN_TRACE_ID` propagation string, mirroring the `try`
block of `Chain.__init__`: split on `;`, split each pair on `=`, build a dict,
and read the keys `Root`, `Parent`, `Sampled`.  Any failure (a pair without
exactly one `=`, or a missing key) is caught by the bare `except` and yields
`none`, standing for `env_trace_id = env_parent_id = env_sampled = None`. -/
def parseTraceHeader (s : String) : Option (String × String × String) := do
  let pairs ← (splitOnChar ';' s.data).mapM parsePair
  let root ← dictLookup pairs "Root".data
  let par ← dictLookup pairs "Parent".data
  let sampled ← dictLookup pairs "Sampled".data
  pure (String.mk root, String.mk par, String.mk sampled)

/-- Value stored in `in_progress` by `log_start`, consumed by `log_end`. -/
structure SpanInfo where
  start_time : Rat
  name : String
  deriving Repr, DecidableEq

/-- The segment document built by `Chain.log` before `json.dumps`.  The buffer
is modelled as a list of these records; the serialisation to a JSON string is
injective on them and plays no role in any claim, so it is elided. -/
structure Segment where
  name : String
  id : String
  trace_id : String
  start_time : Rat
  end_time : Option Rat
  in_progress : Bool
  parent_id : Option String
  type_subsegment : Bool
  metadata : Option String
  annotations : Option String
  http : Option String
  deriving Repr, DecidableEq

/-- The mutable state of one `Chain` object.  `trace_id_key` is the 16 random
bytes from `os.urandom(16)`; `flush_locked` models whether `flush_lock` is
currently held. -/
structure ChainState where
  trace_id_key : List Nat
  backlog : Nat
  segments : List Segment
  trace_id : String
  parent_id : Option String
  mock : Bool
  last_segment_id : Option String
  subsegment : Bool
  in_progress : List (String × SpanInfo)
  flush_locked : Bool
  deriving Repr, DecidableEq

/-- The `name` argument of `Chain.log`, which in Python may be any value; the
`isinstance(name, str) or isinstance(name, unicode)` check only distinguishes
text values from everything else. -/
inductive NameArg where
  | text (s : String)
  | nonText
  deriving Repr, DecidableEq

/-- Embedding of `Chain.__init__`.  Nondeterministic inputs become parameters:
`env` is the value of the `_X_AMZN_TRACE_ID` environment variable when set,
`genTraceId` is the freshly generated trace id (the HMAC construction from
`origin_time` and a uuid nonce) used only when no explicit or environment
trace id is available, and `key` is the `os.urandom(16)` secret.  Construction
is total: the parse failure inside is swallowed. -/
def chainInit (backlog : Nat) (parent_id : Option String) (subsegment : Bool)
    (trace_id : Option String) (mock : Option Bool) (use_env_trace_params : Bool)
    (env : Option String) (genTraceId : String) (key : List Nat) : ChainState :=
  let envParams : Option (String × String × String) :=
    if use_env_trace_params then env.bind parseTraceHeader else none
  let env_trace_id : Option String := envParams.map (fun t => t.1)
  let env_parent_id : Option String := envParams.map (fun t => t.2.1)
  let env_sampled : Option String := envParams.map (fun t => t.2.2)
  { trace_id_key := key
    backlog := backlog
    segments := []
    trace_id :=
      match trace_id with
      | none =>
        match env_trace_id with
        | none => genTraceId
        | some t => t
      | some t => t
    parent_id :=
      match parent_id with
      | none => env_parent_id
      | some p => some p
    mock :=
      match mock with
      | some m => m
      | none =>
        match env_sampled with
        | some s => if s = "1" then false else true
        | none => false
    last_segment_id := none
    subsegment := subsegment
    in_progress := []
    flush_locked := false }

/-- Outcome of `Chain.flush`.  `ok` carries the returned count, whether the
external sink was invoked, and the state left behind; `sinkError` is the
exception escaping from `put_trace_segments`, carrying the state left behind
(the statements after the call do not run); `blocked` models
`flush_lock.acquire()` on a lock that is already held: the caller waits
forever. -/
inductive FlushOutcome where
  | ok (count : Nat) (sinkCalled : Bool) (c : ChainState)
  | sinkError (c : ChainState)
  | blocked
  deriving Repr, DecidableEq

/-- Embedding of `Chain.flush`.  `clientPresent` is whether the class-level
boto3 client exists (it is `None` exactly when `MOCK_XRAY` is in the
environment); `sinkOk` is whether the `put_trace_segments` call, if made,
succeeds.  The source clears the buffer and releases the lock only after the
sink call returns, so on a sink exception the state keeps its segments and
keeps the lock held. -/
def flush (clientPresent sinkOk : Bool) (c : ChainState) : FlushOutcome :=
  if c.flush_locked then .blocked
  else
    let c1 : ChainState := { c with flush_locked := true }
    if c1.segments.length = 0 then
      .ok 0 false { c1 with flush_locked := false }
    else
      let nsegments := c1.segments.length
      if clientPresent && !c1.mock then
        if sinkOk then
          .ok nsegments true { c1 with segments := [], flush_locked := false }
        else
          .sinkError c1
      else
        .ok nsegments false { c1 with segments := [], flush_locked := false }

/-- Outcome of a `log` / `log_end` call.  `valueError` is the rejection of a
non-string name (`ValueError`); `keyError` is the failed `in_progress` lookup
in `log_end`; `sinkError` and `blocked` surface from an auto-flush.  Error
constructors carry the state left behind. -/
inductive CallOutcome where
  | ok (segment_id : String) (c : ChainState) (flushed sinkCalled : Bool)
  | valueError (c : ChainState)
  | keyError (c : ChainState)
  | sinkError (c : ChainState)
  | blocked
  deriving Repr, DecidableEq

/-- Python truthiness of the `segment_id` argument in
`segment_id if segment_id else self.__segment_id()`: `None` and the empty
string both fall back to the generated id. -/
def chooseSegmentId (segment_id : Option String) (gen : String) : String :=
  match segment_id with
  | none => gen
  | some s => if s = "" then gen else s

/-- The segment dictionary constructed by `Chain.log` before buffering:
name, id (explicit or generated), the chain's trace id, the timing fields
(`end_time` XOR `in_progress`), the chain's parent id, the subsegment type
marker, and the optional payloads. -/
def builtSegment (gen : String) (start_time : Rat) (end_time : Option Rat) (nm : String)
    (metadata annotations http : Option String) (segment_id : Option String)
    (c : ChainState) : Segment :=
  { name := nm
    id := chooseSegmentId segment_id gen
    trace_id := c.trace_id
    start_time := start_time
    end_time := end_time
    in_progress := end_time.isNone
    parent_id := c.parent_id
    type_subsegment := c.subsegment
    metadata := metadata
    annotations := annotations
    http := http }

/-- The chain state after `Chain.log` has recorded its segment:
`last_segment_id` updated to the segment's id and the serialized segment
appended to the buffer. -/
def appendedState (gen : String) (start_time : Rat) (end_time : Option Rat) (nm : String)
    (metadata annotations http : Option String) (segment_id : Option String)
    (c : ChainState) : ChainState :=
  { c with
      last_segment_id := some (chooseSegmentId segment_id gen)
      segments := c.segments
        ++ [builtSegment gen start_time end_time nm metadata annotations http segment_id c] }

/-- Embedding of `Chain.log`.  `gen` is the id produced by `__segment_id()`
(an HMAC over a fresh uuid nonce, modelled as an oracle input); `clientPresent`
and `sinkOk` parametrise the auto-flush exactly as in `flush`. -/
def log (gen : String) (start_time : Rat) (end_time : Option Rat) (name : NameArg)
    (metadata annotations http : Option String) (segment_id : Option String)
    (clientPresent sinkOk : Bool) (c : ChainState) : CallOutcome :=
  match name with
  | .nonText => .valueError c
  | .text nm =>
    let c1 : ChainState :=
      appendedState gen start_time end_time nm metadata annotations http segment_id c
    if c1.segments.length ≥ c1.backlog then
      match flush clientPresent sinkOk c1 with
      | .ok _ sinkCalled c2 => .ok (chooseSegmentId segment_id gen) c2 true sinkCalled
      | .sinkError c2 => .sinkError c2
      | .blocked => .blocked
    else
      .ok (chooseSegmentId segment_id gen) c1 false false

/-- First binding for a key in the open-span table (keys are unique, since
Python's `dict` holds each key once). -/
def lookupSpan (ps : List (String × SpanInfo)) (k : String) : Option SpanInfo :=
  match ps with
  | [] => none
  | kv :: rest => if kv.1 = k then some kv.2 else lookupSpan rest k

/-- Removal of a key from the open-span table (`del self.in_progress[id]`). -/
def removeSpan (ps : List (String × SpanInfo)) (k : String) : List (String × SpanInfo) :=
  ps.filter (fun kv => kv.1 ≠ k)

/-- Text payload of a name argument; `log_start` only stores names that `log`
has already accepted as text. -/
def nameText : NameArg → String
  | .text s => s
  | .nonText => ""

/-- Embedding of `Chain.log_start`: records an in-progress segment (no end
time) through `log` and, on success, inserts the span into `in_progress`.
`now` is `time.time()` at the call. -/
def log_start (now : Rat) (gen : String) (name : NameArg)
    (clientPresent sinkOk : Bool) (c : ChainState) : CallOutcome :=
  match log gen now none name none none none none clientPresent sinkOk c with
  | .ok sid c1 flushed sinkCalled =>
    .ok sid { c1 with in_progress := c1.in_progress ++ [(sid, { start_time := now, name := nameText name })] }
      flushed sinkCalled
  | other => other

/-- Embedding of `Chain.log_end`: the subscript `self.in_progress[segment_id]`
raises `KeyError` when the id is absent (never opened or already closed) and
nothing is mutated; otherwise the entry is deleted and a completed segment is
logged with the original start time and name, the same id, and `now` as end
time. -/
def log_end (now : Rat) (gen : String) (metadata annotations http : Option String)
    (segment_id : String) (clientPresent sinkOk : Bool) (c : ChainState) : CallOutcome :=
  match lookupSpan c.in_progress segment_id with
  | none => .keyError c
  | some info =>
    let c1 : ChainState := { c with in_progress := removeSpan c.in_progress segment_id }
    log gen info.start_time (some now) (.text info.name) metadata annotations http
      (some segment_id) clientPresent sinkOk c1

/-- Embedding of `Chain.__fork`.  The guard raises `RuntimeError` whenever a
subsegment fork is requested from a chain that has never emitted a segment —
the guard runs before the explicit `parent_id` is consulted.  The child is a
fresh `Chain` built with explicit `parent_id`, `subsegment`, `backlog`,
`trace_id` and `mock`, with `use_env_trace_params` left at its default `True`;
`env`, `genTraceId` and `childKey` are the construction oracles. -/
def fork (subsegment : Bool) (parent_id : Option String) (c : ChainState)
    (env : Option String) (genTraceId : String) (childKey : List Nat) :
    Except Unit ChainState :=
  if subsegment && c.last_segment_id.isNone then
    .error ()
  else
    let pid : Option String :=
      match parent_id with
      | none => c.last_segment_id
      | some p => some p
    .ok (chainInit c.backlog pid subsegment (some c.trace_id) (some c.mock) true
      env genTraceId childKey)

/-- Embedding of `Chain.fork_subsegment`. -/
def fork_subsegment (parent_id : Option String) (c : ChainState)
    (env : Option String) (genTraceId : String) (childKey : List Nat) :
    Except Unit ChainState :=
  fork true parent_id c env genTraceId childKey

/-- Embedding of `Chain.fork_root`. -/
def fork_root (parent_id : Option String) (c : ChainState)
    (env : Option String) (genTraceId : String) (childKey : List Nat) :
    Except Unit ChainState :=
  fork false parent_id c env genTraceId childKey

/-- State carried by a call outcome, when the call did not block forever. -/
def resultState : CallOutcome → Option ChainState
  | .ok _ c _ _ => some c
  | .valueError c => some c
  | .keyError c => some c
  | .sinkError c => some c
  | .blocked => none

/-- State delivered by a successful call. -/
def okState : CallOutcome → Option ChainState
  | .ok _ c _ _ => some c
  | _ => none

/-- Buffer length of the state delivered by a successful call. -/
def okBufferLen (r : CallOutcome) : Option Nat :=
  (okState r).map (fun x => x.segments.length)

/-- Whether a successful call reports that it triggered an auto-flush. -/
def didFlush : CallOutcome → Option Bool
  | .ok _ _ flushed _ => some flushed
  | _ => none

/-- Whether a call succeeded. -/
def isOkCall : CallOutcome → Bool
  | .ok _ _ _ _ => true
  | _ => false

/-- Whether a call was rejected with `ValueError`. -/
def isValueError : CallOutcome → Bool
  | .valueError _ => true
  | _ => false

/-! Concrete states used by witnesses and counterexamples. -/

/-- A freshly constructed mock chain with backlog 2 and an explicit parent,
as in the spec's scenario section. -/
def freshMock : ChainState :=
  chainInit 2 (some "abc123") false (some "tid0") (some true) false none "g0" [7]

/-- A completed segment as buffered by a `log` call on `freshMock`. -/
def sampleSegment : Segment :=
  { name := "x"
    id := "gen0"
    trace_id := "tid0"
    start_time := 0
    end_time := some 1
    in_progress := false
    parent_id := some "abc123"
    type_subsegment := false
    metadata := none
    annotations := none
    http := none }

/-- A mock chain holding one buffered segment, a recorded last segment id and
one open span. -/
def mockChain1 : ChainState :=
  { freshMock with
      backlog := 100
      segments := [sampleSegment]
      last_segment_id := some "gen0"
      in_progress := [("spanA", { start_time := 0, name := "w" })] }

/-- A non-mock chain holding one buffered segment, about to talk to a live
sink. -/
def liveChain : ChainState := { mockChain1 with mock := false }

/-- Claim C5: the chain's mock flag is resolved at construction with
explicit-wins priority: it equals the explicit `mock` argument when one is
given; otherwise, when a parsed `Sampled` value is available, mock is false
exactly when `Sampled` equals "1" and true for any other value; otherwise
mock is false. -/
theorem C5_mock_resolution (backlog : Nat) (pid : Option String) (sub : Bool)
    (tid : Option String) (useEnv : Bool) (env : Option String) (g : String)
    (key : List Nat) :
    (∀ m : Bool, (chainInit backlog pid sub tid (some m) useEnv env g key).mock = m) ∧
    (∀ s root par samp, parseTraceHeader s = some (root, par, samp) →
      ((chainInit backlog pid sub tid none true (some s) g key).mock = false ↔ samp = "1")) ∧
    ((if useEnv then env.bind parseTraceHeader else none) = none →
      (chainInit backlog pid sub tid none useEnv env g key).mock = false) := by
  refine ⟨fun m => rfl, fun s root par samp hp => ?_, fun hnone => ?_⟩
  · simp only [chainInit, Option.bind_some, if_true]
    by_cases hs : samp = "1" <;> simp [hp, hs]
  · simp only [chainInit, hnone]
    simp

/-- Witness for C5 at concrete inputs: an explicit `mock=False` wins over a
`Sampled=0` header; without an explicit flag, `Sampled=0` yields mock = true
(stated through the iff against `"0" = "1"`); with the header ignored
(`use_env_trace_params=False`) the flag defaults to false. -/
theorem C5_mock_resolution_witness :
    ((chainInit 100 none false none (some false) true (some "Root=a;Parent=b;Sampled=0") "g" []).mock = false) ∧
    ((chainInit 100 none false none none true (some "Root=a;Parent=b;Sampled=0") "g" []).mock = false
      ↔ ("0" : String) = "1") ∧
    ((chainInit 100 none false none none false (some "Root=a;Parent=b;Sampled=0") "g" []).mock = false) :=
  ⟨(C5_mock_resolution 100 none false none true (some "Root=a;Parent=b;Sampled=0") "g" []).1 false,
   (C5_mock_resolution 100 none false none true (some "Root=a;Parent=b;Sampled=0") "g" []).2.1
     "Root=a;Parent=b;Sampled=0" "a" "b" "0" (by decide),
   (C5_mock_resolution 100 none false none false (some "Root=a;Parent=b;Sampled=0") "g" []).2.2 rfl⟩

/-- Claim C6: for every malformed propagation string, chain construction never
raises from parsing (the embedded constructor is total) and all three fields
resolve as if the propagation string were absent: construction with the
malformed string equals construction without one, the trace id falls back to
the explicit value or the generated one, the parent id to the explicit
argument, and the mock flag to the explicit argument or false. -/
theorem C6_malformed_header_falls_back (s : String) (hbad : parseTraceHeader s = none)
    (backlog : Nat) (pid : Option String) (sub : Bool) (tid : Option String)
    (mock : Option Bool) (useEnv : Bool) (g : String) (key : List Nat) :
    chainInit backlog pid sub tid mock useEnv (some s) g key
      = chainInit backlog pid sub tid mock useEnv none g key ∧
    (chainInit backlog pid sub tid mock useEnv (some s) g key).trace_id = tid.getD g ∧
    (chainInit backlog pid sub tid mock useEnv (some s) g key).parent_id = pid ∧
    (chainInit backlog pid sub tid mock useEnv (some s) g key).mock = mock.getD false := by
  have henv : (if useEnv then (some s).bind parseTraceHeader else none)
      = (if useEnv then (none : Option String).bind parseTraceHeader else none) := by
    simp [hbad]
  refine ⟨?_, ?_, ?_, ?_⟩
  · simp only [chainInit, henv]
  · simp only [chainInit, henv]
    cases tid <;> simp
  · simp only [chainInit, henv]
    cases pid <;> simp
  · simp only [chainInit, henv]
    cases mock <;> simp

/-- Witness for C6: the malformed header "garbage" (no separators at all)
leaves construction identical to a construction with no header. -/
theorem C6_malformed_header_falls_back_witness :
    parseTraceHeader "garbage" = none ∧
    chainInit 100 (some "p") true (some "t") (some true) true (some "garbage") "g" [1]
      = chainInit 100 (some "p") true (some "t") (some true) true none "g" [1] ∧
    (chainInit 100 (some "p") true (some "t") (some true) true (some "garbage") "g" [1]).trace_id
      = (some "t").getD "g" ∧
    (chainInit 100 (some "p") true (some "t") (some true) true (some "garbage") "g" [1]).parent_id
      = some "p" ∧
    (chainInit 100 (some "p") true (some "t") (some true) true (some "garbage") "g" [1]).mock
      = (some true).getD false :=
  ⟨by decide,
   (C6_malformed_header_falls_back "garbage" (by decide) 100 (some "p") true (some "t")
     (some true) true "g" [1]).1,
   (C6_malformed_header_falls_back "garbage" (by decide) 100 (some "p") true (some "t")
     (some true) true "g" [1]).2.1,
   (C6_malformed_header_falls_back "garbage" (by decide) 100 (some "p") true (some "t")
     (some true) true "g" [1]).2.2.1,
   (C6_malformed_header_falls_back "garbage" (by decide) 100 (some "p") true (some "t")
     (some true) true "g" [1]).2.2.2⟩

/-- Counterexample to claim C2: on a freshly constructed chain (no segment
ever emitted) `fork_subsegment` raises the illegal-fork `RuntimeError` even
though an explicit `parent_id` was supplied — the guard consults only
`last_segment_id`. -/
theorem C2_fork_explicit_parent_counterexample :
    freshMock.last_segment_id = none ∧
    fork_subsegment (some "abc123") freshMock none "g1" [2] = .error () :=
  ⟨rfl, rfl⟩

/-- Claim C2 (amended): `fork_subsegment` raises the illegal-fork state error
exactly when the forking chain has never emitted a segment
(`last_segment_id` is none), regardless of whether an explicit `parent_id`
argument was supplied; when a segment has been emitted, the fork succeeds and
constructs the child chain. -/
theorem C2_fork_state_error_iff (parent_id : Option String) (c : ChainState)
    (env : Option String) (g : String) (key : List Nat) :
    fork_subsegment parent_id c env g key = .error () ↔ c.last_segment_id = none := by
  cases hlast : c.last_segment_id <;>
    simp [fork_subsegment, fork, hlast]

/-- Counterexample to claim C3: a `log` call whose name is the empty string is
not rejected — the `isinstance` check only excludes non-text values, so the
empty-string segment is accepted and buffered. -/
theorem C3_empty_name_counterexample :
    isValueError (log "gen0" 0 (some 1) (.text "") none none none none true true freshMock)
      = false ∧
    okBufferLen (log "gen0" 0 (some 1) (.text "") none none none none true true freshMock)
      = some 1 := by
  decide

/-- Claim C3 (amended): a `log` call is rejected with the invalid-input
`ValueError` exactly when its name argument is not a text value; an empty
string is text and is accepted. The rejection happens before any buffering:
the outcome carries the caller's state unchanged (same buffer, same
`last_segment_id`, same open-span table). -/
theorem C3_name_validation (gen : String) (start_time : Rat) (end_time : Option Rat)
    (name : NameArg) (metadata annotations http : Option String)
    (segment_id : Option String) (cp so : Bool) (c : ChainState) :
    log gen start_time end_time name metadata annotations http segment_id cp so c
      = .valueError c ↔ name = .nonText := by
  cases name with
  | nonText => simp [log]
  | text nm =>
    simp only [log]
    constructor
    · intro h
      split at h
      · split at h <;> simp_all
      · simp_all
    · intro h
      exact absurd h (by simp)

/-- Claim C1 concerns a code bug: when `put_trace_segments` raises during
`flush()` on a live (non-mock) chain, the statements that clear the buffer and
release `flush_lock` never run.  At this concrete failing input the outcome
carries a state whose buffer still holds the segment (not captured and
cleared, contrary to the spec) and whose flush lock is still held, so a
subsequent `flush()` — even one whose sink call would succeed — blocks
forever on the stuck lock. -/
theorem C1_sink_failure_state :
    flush true false liveChain = .sinkError { liveChain with flush_locked := true } ∧
    ({ liveChain with flush_locked := true }).segments = [sampleSegment] ∧
    flush true true { liveChain with flush_locked := true } = .blocked :=
  ⟨rfl, rfl, rfl⟩

/-- Frame property of a successful `flush`: every field other than the
segment buffer is unchanged, and the lock is released. -/
theorem flush_ok_frame (cp so : Bool) (c c' : ChainState) (n : Nat) (sc : Bool)
    (h : flush cp so c = .ok n sc c') :
    c'.trace_id_key = c.trace_id_key ∧ c'.backlog = c.backlog ∧
    c'.trace_id = c.trace_id ∧ c'.parent_id = c.parent_id ∧ c'.mock = c.mock ∧
    c'.last_segment_id = c.last_segment_id ∧ c'.subsegment = c.subsegment ∧
    c'.in_progress = c.in_progress ∧ c'.flush_locked = false := by
  by_cases h1 : c.flush_locked = true
  · simp [flush, h1] at h
  · by_cases h2 : c.segments.length = 0
    · simp [flush, h1, h2] at h
      obtain ⟨-, -, hc⟩ := h
      subst hc
      simp
    · by_cases h3 : (cp && !c.mock) = true
      · by_cases h4 : so = true
        · simp [flush, h1, h2, h3, h4] at h
          obtain ⟨-, -, hc⟩ := h
          subst hc
          simp
        · simp [flush, h1, h2, h3, h4] at h
      · simp [flush, h1, h2, h3] at h
        obtain ⟨-, -, hc⟩ := h
        subst hc
        simp

/-- Claim C9: on a mock chain, `flush()` with a nonempty buffer returns the
count of segments buffered at the start, leaves the buffer empty, and never
invokes the external sink; `flush()` on an empty buffer returns 0, performs
no sink call, and leaves the state unchanged. -/
theorem C9_mock_flush (cp so : Bool) (c : ChainState) (hl : c.flush_locked = false)
    (hm : c.mock = true) :
    (c.segments.length ≠ 0 →
      flush cp so c = .ok c.segments.length false { c with segments := [] }) ∧
    (c.segments.length = 0 → flush cp so c = .ok 0 false c) := by
  constructor
  · intro h
    cases c
    simp_all [flush]
  · intro h
    cases c
    simp_all [flush]

/-- Witness for C9: flushing a mock chain holding one buffered segment
returns 1 with no sink call and empties the buffer; flushing the fresh empty
mock chain returns 0 with no sink call. -/
theorem C9_mock_flush_witness :
    flush true true mockChain1
      = .ok mockChain1.segments.length false { mockChain1 with segments := [] } ∧
    flush true true freshMock = .ok 0 false freshMock :=
  ⟨(C9_mock_flush true true mockChain1 rfl rfl).1 (by decide),
   (C9_mock_flush true true freshMock rfl rfl).2 rfl⟩

/-- Deleting a key from the open-span table makes a later lookup of that key
fail. -/
theorem lookupSpan_removeSpan (ps : List (String × SpanInfo)) (k : String) :
    lookupSpan (removeSpan ps k) k = none := by
  induction ps with
  | nil => rfl
  | cons kv rest ih =>
    by_cases hk : kv.1 = k
    · simpa [removeSpan, List.filter, hk] using ih
    · simpa [removeSpan, List.filter, hk, lookupSpan] using ih

/-- A successful `log` call leaves the open-span table untouched. -/
theorem log_ok_in_progress (gen : String) (start_time : Rat) (end_time : Option Rat)
    (name : NameArg) (metadata annotations http : Option String)
    (segment_id : Option String) (cp so : Bool) (c : ChainState)
    (s2 : String) (c2 : ChainState) (f sc : Bool)
    (hlog : log gen start_time end_time name metadata annotations http segment_id cp so c
      = .ok s2 c2 f sc) :
    c2.in_progress = c.in_progress := by
  cases name with
  | nonText => simp [log] at hlog
  | text nm =>
    simp only [log] at hlog
    split at hlog
    · split at hlog
      · next n sc3 c3 heq =>
        obtain ⟨-, hc, -, -⟩ := CallOutcome.ok.inj hlog
        subst hc
        have hframe := flush_ok_frame cp so _ c3 n sc3 heq
        simpa [appendedState] using hframe.2.2.2.2.2.2.2.1
      · exact absurd hlog (by simp)
      · exact absurd hlog (by simp)
    · obtain ⟨-, hc, -, -⟩ := CallOutcome.ok.inj hlog
      subst hc
      simp [appendedState]

/-- Claim C7: closing a segment id absent from the open-span table (never
opened, or already closed) fails with the lookup error and mutates nothing —
the outcome carries the caller's state unchanged; and after any successful
close, a second close of the same id fails with the lookup error. -/
theorem C7_unknown_span (now : Rat) (gen : String)
    (metadata annotations http : Option String) (sid : String) (cp so : Bool)
    (c : ChainState) :
    (lookupSpan c.in_progress sid = none →
      log_end now gen metadata annotations http sid cp so c = .keyError c) ∧
    (∀ sid2 c2 f sc,
      log_end now gen metadata annotations http sid cp so c = .ok sid2 c2 f sc →
      ∀ now2 gen2 m2 a2 h2 cp2 so2,
        log_end now2 gen2 m2 a2 h2 sid cp2 so2 c2 = .keyError c2) := by
  constructor
  · intro hnone
    simp [log_end, hnone]
  · intro sid2 c2 f sc hok now2 gen2 m2 a2 h2 cp2 so2
    unfold log_end at hok
    cases hlook : lookupSpan c.in_progress sid with
    | none => rw [hlook] at hok; simp at hok
    | some info =>
      rw [hlook] at hok
      have hip := log_ok_in_progress _ _ _ _ _ _ _ _ _ _ _ _ _ _ _ hok
      simp only at hip
      simp [log_end, hip, lookupSpan_removeSpan]

/-- Completed-span segment buffered by the witness close of `mockChain1`. -/
def closedSegment : Segment :=
  { name := "w"
    id := "spanA"
    trace_id := "tid0"
    start_time := 0
    end_time := some 5
    in_progress := false
    parent_id := some "abc123"
    type_subsegment := false
    metadata := none
    annotations := none
    http := none }

/-- State of `mockChain1` after its open span has been closed once. -/
def mockChain1Closed : ChainState :=
  { mockChain1 with
      segments := [sampleSegment, closedSegment]
      last_segment_id := some "spanA"
      in_progress := [] }

/-- Witness for C7: closing the never-opened id "A" on the fresh chain fails
with the lookup error and returns the state unchanged; after the one
successful close of "spanA" on `mockChain1`, a second close of "spanA"
fails. -/
theorem C7_unknown_span_witness :
    log_end 1 "g" none none none "A" true true freshMock = .keyError freshMock ∧
    log_end 9 "g9" none none none "spanA" true true mockChain1Closed
      = .keyError mockChain1Closed :=
  ⟨(C7_unknown_span 1 "g" none none none "A" true true freshMock).1 rfl,
   (C7_unknown_span 5 "g5" none none none "spanA" true true mockChain1).2
     "spanA" mockChain1Closed false false (by decide) 9 "g9" none none none true true⟩

/-- Claim C8: for a chain whose most recently emitted segment has id `S`,
`fork_root()` and `fork_subsegment()` with no explicit parent succeed and
produce a child chain whose parent id is `S` and whose trace id, backlog and
mock flag equal the forking chain's; `fork_root` marks the child as a
non-subsegment chain and `fork_subsegment` as a subsegment chain. -/
theorem C8_fork_inherits (c : ChainState) (S : String)
    (hS : c.last_segment_id = some S) (env : Option String) (g : String)
    (key : List Nat) :
    (fork_root none c env g key).map ChainState.parent_id = .ok (some S) ∧
    (fork_root none c env g key).map ChainState.trace_id = .ok c.trace_id ∧
    (fork_root none c env g key).map ChainState.backlog = .ok c.backlog ∧
    (fork_root none c env g key).map ChainState.mock = .ok c.mock ∧
    (fork_root none c env g key).map ChainState.subsegment = .ok false ∧
    (fork_subsegment none c env g key).map ChainState.parent_id = .ok (some S) ∧
    (fork_subsegment none c env g key).map ChainState.trace_id = .ok c.trace_id ∧
    (fork_subsegment none c env g key).map ChainState.backlog = .ok c.backlog ∧
    (fork_subsegment none c env g key).map ChainState.mock = .ok c.mock ∧
    (fork_subsegment none c env g key).map ChainState.subsegment = .ok true := by
  refine ⟨?_, ?_, ?_, ?_, ?_, ?_, ?_, ?_, ?_, ?_⟩ <;>
    simp [fork_root, fork_subsegment, fork, hS, chainInit, Except.map]

/-- Witness for C8 on `mockChain1`, whose last emitted segment id is "gen0":
both fork flavours inherit trace id "tid0", backlog 100 and the mock flag,
and use "gen0" as the child's parent id. -/
theorem C8_fork_inherits_witness :
    (fork_root none mockChain1 none "g" []).map ChainState.parent_id = .ok (some "gen0") ∧
    (fork_root none mockChain1 none "g" []).map ChainState.trace_id = .ok mockChain1.trace_id ∧
    (fork_root none mockChain1 none "g" []).map ChainState.backlog = .ok mockChain1.backlog ∧
    (fork_root none mockChain1 none "g" []).map ChainState.mock = .ok mockChain1.mock ∧
    (fork_root none mockChain1 none "g" []).map ChainState.subsegment = .ok false ∧
    (fork_subsegment none mockChain1 none "g" []).map ChainState.parent_id = .ok (some "gen0") ∧
    (fork_subsegment none mockChain1 none "g" []).map ChainState.trace_id = .ok mockChain1.trace_id ∧
    (fork_subsegment none mockChain1 none "g" []).map ChainState.backlog = .ok mockChain1.backlog ∧
    (fork_subsegment none mockChain1 none "g" []).map ChainState.mock = .ok mockChain1.mock ∧
    (fork_subsegment none mockChain1 none "g" []).map ChainState.subsegment = .ok true :=
  C8_fork_inherits mockChain1 "gen0" rfl none "g" []

/-- When the lock is free and the sink (if it would be reached at all) is
healthy, `flush` succeeds, returns the buffered count and clears the
buffer. -/
theorem flush_ok_clears (cp so : Bool) (c : ChainState) (hl : c.flush_locked = false)
    (hsink : c.mock = true ∨ cp = false ∨ so = true) :
    ∃ sc, flush cp so c = .ok c.segments.length sc { c with segments := [] } := by
  by_cases h2 : c.segments.length = 0
  · refine ⟨false, ?_⟩
    have hseg : c.segments = [] := List.length_eq_zero.mp h2
    cases c
    simp_all [flush]
  · by_cases h3 : (cp && !c.mock) = true
    · have hso : so = true := by
        rcases hsink with hm | hcp | hso
        · rw [hm] at h3; simp at h3
        · rw [hcp] at h3; simp at h3
        · exact hso
      refine ⟨true, ?_⟩
      cases c
      simp_all [flush]
    · refine ⟨false, ?_⟩
      cases c
      simp_all [flush]

/-- Claim C4: starting below the backlog threshold, a single-segment `log`
call that does not reach the threshold grows the buffer by exactly one and
triggers no flush; the call that makes the buffer length reach the threshold
synchronously flushes before returning, leaving the buffer empty; and in
either case the buffer length observed after the call is again below the
threshold, so it never exceeds the threshold between calls. -/
theorem C4_backlog_autoflush (gen : String) (st : Rat) (et : Option Rat) (nm : String)
    (metadata annotations http : Option String) (segment_id : Option String)
    (cp so : Bool) (c : ChainState) (hl : c.flush_locked = false)
    (hsink : c.mock = true ∨ cp = false ∨ so = true)
    (hlen : c.segments.length < c.backlog) :
    (c.segments.length + 1 < c.backlog →
      okBufferLen (log gen st et (.text nm) metadata annotations http segment_id cp so c)
          = some (c.segments.length + 1) ∧
      didFlush (log gen st et (.text nm) metadata annotations http segment_id cp so c)
          = some false) ∧
    (c.segments.length + 1 = c.backlog →
      okBufferLen (log gen st et (.text nm) metadata annotations http segment_id cp so c)
          = some 0 ∧
      didFlush (log gen st et (.text nm) metadata annotations http segment_id cp so c)
          = some true) ∧
    (∀ c2, okState (log gen st et (.text nm) metadata annotations http segment_id cp so c)
          = some c2 → c2.segments.length < c.backlog) := by
  have hA : (appendedState gen st et nm metadata annotations http segment_id c).segments.length
      = c.segments.length + 1 := by simp [appendedState]
  have hB : (appendedState gen st et nm metadata annotations http segment_id c).backlog
      = c.backlog := by simp [appendedState]
  have hFL : (appendedState gen st et nm metadata annotations http segment_id c).flush_locked
      = false := by simp [appendedState, hl]
  have hM : (appendedState gen st et nm metadata annotations http segment_id c).mock
      = c.mock := by simp [appendedState]
  by_cases h1 : (appendedState gen st et nm metadata annotations http segment_id c).segments.length
      ≥ (appendedState gen st et nm metadata annotations http segment_id c).backlog
  · obtain ⟨sc, hflush⟩ := flush_ok_clears cp so
      (appendedState gen st et nm metadata annotations http segment_id c) hFL
      (by rw [hM]; exact hsink)
    have hlog : log gen st et (.text nm) metadata annotations http segment_id cp so c
        = .ok (chooseSegmentId segment_id gen)
            { appendedState gen st et nm metadata annotations http segment_id c with
                segments := [] } true sc := by
      simp only [log, if_pos h1, hflush]
    refine ⟨fun h2 => ?_, fun h2 => ?_, fun c2 hc2 => ?_⟩
    · exfalso; rw [hA, hB] at h1; omega
    · rw [hlog]
      constructor <;> simp [okBufferLen, okState, didFlush]
    · rw [hlog] at hc2
      simp only [okState, Option.some.injEq] at hc2
      rw [← hc2]
      simp
      omega
  · have hlog : log gen st et (.text nm) metadata annotations http segment_id cp so c
        = .ok (chooseSegmentId segment_id gen)
            (appendedState gen st et nm metadata annotations http segment_id c) false false := by
      simp only [log, if_neg h1]
    refine ⟨fun h2 => ?_, fun h2 => ?_, fun c2 hc2 => ?_⟩
    · rw [hlog]
      constructor <;> simp [okBufferLen, okState, didFlush, hA]
    · exfalso; rw [hA, hB] at h1; omega
    · rw [hlog] at hc2
      simp only [okState, Option.some.injEq] at hc2
      rw [← hc2, hA]
      rw [hA, hB] at h1
      omega

/-- Witness for C4 on the fresh mock chain (backlog 2): the first record
grows the buffer to one with no flush; a second record on the resulting
one-segment state reaches the threshold, auto-flushes, and leaves the buffer
empty. -/
theorem C4_backlog_autoflush_witness :
    (okBufferLen (log "gen0" 0 (some 1) (.text "x") none none none none true true freshMock)
        = some 1 ∧
      didFlush (log "gen0" 0 (some 1) (.text "x") none none none none true true freshMock)
        = some false) ∧
    (okBufferLen (log "gen1" 2 (some 3) (.text "y") none none none none true true
          { freshMock with segments := [sampleSegment], last_segment_id := some "gen0" })
        = some 0 ∧
      didFlush (log "gen1" 2 (some 3) (.text "y") none none none none true true
          { freshMock with segments := [sampleSegment], last_segment_id := some "gen0" })
        = some true) :=
  ⟨(C4_backlog_autoflush "gen0" 0 (some 1) "x" none none none none true true freshMock
      rfl (Or.inl rfl) (by decide)).1 (by decide),
   (C4_backlog_autoflush "gen1" 2 (some 3) "y" none none none none true true
      { freshMock with segments := [sampleSegment], last_segment_id := some "gen0" }
      rfl (Or.inl rfl) (by decide)).2.1 (by decide)⟩

/-- A `log` call with a text name on an unlocked chain whose (possible)
auto-flush would not hit a failing sink always succeeds. -/
theorem log_text_ok (gen : String) (st : Rat) (et : Option Rat) (nm : String)
    (metadata annotations http : Option String) (segment_id : Option String)
    (cp so : Bool) (c : ChainState) (hl : c.flush_locked = false)
    (hsink : c.mock = true ∨ cp = false ∨ so = true) :
    isOkCall (log gen st et (.text nm) metadata annotations http segment_id cp so c)
      = true := by
  have hFL : (appendedState gen st et nm metadata annotations http segment_id c).flush_locked
      = false := by simp [appendedState, hl]
  have hM : (appendedState gen st et nm metadata annotations http segment_id c).mock
      = c.mock := by simp [appendedState]
  by_cases h1 : (appendedState gen st et nm metadata annotations http segment_id c).segments.length
      ≥ (appendedState gen st et nm metadata annotations http segment_id c).backlog
  · obtain ⟨sc, hflush⟩ := flush_ok_clears cp so
      (appendedState gen st et nm metadata annotations http segment_id c) hFL
      (by rw [hM]; exact hsink)
    simp only [log, if_pos h1, hflush, isOkCall]
  · simp only [log, if_neg h1, isOkCall]

/-- Claim C10: a successful `flush()` mutates only the segment buffer — the
trace id, parent id, last segment id, backlog, subsegment flag, secret key,
open-span table, mock flag are unchanged and the lock is released; therefore
a no-argument `fork_root` on the flushed state still uses the pre-flush last
segment id as the child's parent, open spans survive the flush, and a span
open before the flush can still be closed afterwards (given a healthy sink
for the close's own auto-flush). -/
theorem C10_flush_frame (cp so : Bool) (c : ChainState) (n : Nat) (sc : Bool)
    (c2 : ChainState) (hok : flush cp so c = .ok n sc c2) :
    c2.trace_id = c.trace_id ∧ c2.parent_id = c.parent_id ∧
    c2.last_segment_id = c.last_segment_id ∧ c2.backlog = c.backlog ∧
    c2.subsegment = c.subsegment ∧ c2.trace_id_key = c.trace_id_key ∧
    c2.in_progress = c.in_progress ∧ c2.mock = c.mock ∧ c2.flush_locked = false ∧
    (∀ S, c.last_segment_id = some S → ∀ env g key,
      (fork_root none c2 env g key).map ChainState.parent_id = .ok (some S)) ∧
    (∀ sid info, lookupSpan c.in_progress sid = some info →
      lookupSpan c2.in_progress sid = some info) ∧
    (∀ now gen m2 a2 h2 sid info cp2 so2, lookupSpan c.in_progress sid = some info →
      (c.mock = true ∨ cp2 = false ∨ so2 = true) →
      isOkCall (log_end now gen m2 a2 h2 sid cp2 so2 c2) = true) := by
  obtain ⟨hkey, hb, ht, hp, hm, hlast, hsub, hip, hfl⟩ :=
    flush_ok_frame cp so c c2 n sc hok
  refine ⟨ht, hp, hlast, hb, hsub, hkey, hip, hm, hfl, ?_, ?_, ?_⟩
  · intro S hS env g key
    simp [fork_root, fork, hlast, hS, chainInit, Except.map]
  · intro sid info hlook
    rw [hip]
    exact hlook
  · intro now gen m2 a2 h2 sid info cp2 so2 hlook hsink2
    have hlook2 : lookupSpan c2.in_progress sid = some info := by
      rw [hip]; exact hlook
    simp only [log_end, hlook2]
    apply log_text_ok
    · simpa using hfl
    · rcases hsink2 with hmk | hcp | hso
      · left; simpa [hm] using hmk
      · right; left; exact hcp
      · right; right; exact hso

/-- State of `mockChain1` right after a successful flush. -/
def mockChain1Flushed : ChainState := { mockChain1 with segments := [] }

/-- Witness for C10: flushing `mockChain1` (one buffered segment, last
segment id "gen0", one open span "spanA") leaves trace id, last segment id
and the open-span table intact; a no-argument fork of the flushed state still
parents to "gen0", and the span "spanA" can still be closed. -/
theorem C10_flush_frame_witness :
    mockChain1Flushed.trace_id = mockChain1.trace_id ∧
    mockChain1Flushed.last_segment_id = mockChain1.last_segment_id ∧
    mockChain1Flushed.in_progress = mockChain1.in_progress ∧
    (fork_root none mockChain1Flushed none "g" []).map ChainState.parent_id
      = .ok (some "gen0") ∧
    isOkCall (log_end 5 "g5" none none none "spanA" true true mockChain1Flushed)
      = true := by
  obtain ⟨ht, hp, hlast, hb, hsub, hkey, hip, hm, hfl, hfork, hlook, hclose⟩ :=
    C10_flush_frame true true mockChain1 1 false mockChain1Flushed (by decide)
  exact ⟨ht, hlast, hip, hfork "gen0" rfl none "g" [],
    hclose 5 "g5" none none none "spanA" ⟨0, "w"⟩ true true rfl (Or.inl rfl)⟩

end XrayChain
